import Mathlib

/-!
Shallow embedding of `find-winsdk` (src/src/lib.rs): detection of Windows
SDK installations via environment variables and the registry.

External state is passed explicitly:
* the environment is a function `Env : String → Option OsString`
  (modelling `std::env::var_os`);
* the registry is a function `Store : String → RegOpen` giving, for each
  subkey path, the combined outcome of
  `RegKey::predef(HKEY_LOCAL_MACHINE).open_subkey_with_flags(…)` followed by
  `key.decode()`: either the open fails with an `io::Error`, or it succeeds
  and decoding yields `Ok(info)` (`some info`) or an error (`none`).

Every operation also returns the list of external reads it performed
(`Event`), modelling the lazy probe sequence of `SdkInfo::find`; panics
(`expect`) are modelled by `PanicOr.panicked`.
-/

/-- An `OsString`: either valid UTF-8 text or not. `into_string` models
`OsString::into_string`, which fails exactly on non-UTF-8 data. -/
inductive OsString where
  | utf8 (s : String)
  | nonUtf8 (bytes : List Nat)
deriving DecidableEq

def OsString.into_string : OsString → Except OsString String
  | .utf8 s => .ok s
  | .nonUtf8 b => .error (.nonUtf8 b)

/-- `SdkInfo` (src/src/lib.rs lines 88–95). `PathBuf` is modelled by the
`OsString` it was built from (`Path::new(&install_dir).to_owned()`). -/
structure SdkInfo where
  installation_folder : OsString
  product_name : Option String
  product_version : String
deriving DecidableEq

/-- The kind of an `io::Error` (`ErrorKind`): the code only distinguishes
`NotFound` from everything else. -/
inductive ErrKind where
  | notFound
  | permissionDenied
  | other (code : Nat)
deriving DecidableEq

/-- An `io::Error`, identified by its kind. -/
structure IoError where
  kind : ErrKind
deriving DecidableEq

/-- Outcome of opening one registry subkey and decoding its record:
`success decoded` models a successful `open_subkey_with_flags` whose
`key.decode()` yielded `some info` (Ok) or `none` (a decode error);
`failure e` models `open_subkey_with_flags` failing with `e`. -/
inductive RegOpen where
  | success (decoded : Option SdkInfo)
  | failure (e : IoError)
deriving DecidableEq

def Env : Type := String → Option OsString

def Store : Type := String → RegOpen

/-- `SdkVersion` (src/src/lib.rs lines 64–86). -/
inductive SdkVersion where
  | Any
  | Env
  | V10_0
  | V8_1
  | V8_0
  | V7_1
  | V7_0
  | V6_1
  | V6_0
deriving DecidableEq

/-- A value that is either returned normally or lost to a panic
(`expect`). -/
inductive PanicOr (α : Type) where
  | panicked (msg : String)
  | value (val : α)
deriving DecidableEq

instance {ε α : Type} [DecidableEq ε] [DecidableEq α] : DecidableEq (Except ε α) :=
  fun a b =>
    match a, b with
    | .error e₁, .error e₂ =>
      if h : e₁ = e₂ then .isTrue (by rw [h]) else .isFalse (by intro hc; cases hc; exact h rfl)
    | .error _, .ok _ => .isFalse (by intro hc; cases hc)
    | .ok _, .error _ => .isFalse (by intro hc; cases hc)
    | .ok a₁, .ok a₂ =>
      if h : a₁ = a₂ then .isTrue (by rw [h]) else .isFalse (by intro hc; cases hc; exact h rfl)

/-- An external read performed during resolution: one `env::var_os` call or
one registry `open_subkey_with_flags` call. No write events exist, matching
the code, which performs none. -/
inductive Event where
  | envRead (name : String)
  | regOpen (key : String)
deriving DecidableEq

/- Registry key constants (src/src/lib.rs lines 44–56). -/

def V10_0_REG_KEY : String := "SOFTWARE\\Microsoft\\Microsoft SDKs\\Windows\\v10.0"

def V8_1A_REG_KEY : String := "SOFTWARE\\Microsoft\\Microsoft SDKs\\Windows\\v8.1A"

def V8_1_REG_KEY : String := "SOFTWARE\\Microsoft\\Microsoft SDKs\\Windows\\v8.1"

def V8_0A_REG_KEY : String := "SOFTWARE\\Microsoft\\Microsoft SDKs\\Windows\\v8.0A"

def V8_0_REG_KEY : String := "SOFTWARE\\Microsoft\\Microsoft SDKs\\Windows\\v8.0"

def V7_1A_REG_KEY : String := "SOFTWARE\\Microsoft\\Microsoft SDKs\\Windows\\v7.1A"

def V7_1_REG_KEY : String := "SOFTWARE\\Microsoft\\Microsoft SDKs\\Windows\\v7.1"

def V7_0A_REG_KEY : String := "SOFTWARE\\Microsoft\\Microsoft SDKs\\Windows\\v7.0a"

def V7_0_REG_KEY : String := "SOFTWARE\\Microsoft\\Microsoft SDKs\\Windows\\v7.0"

def V6_1A_REG_KEY : String := "SOFTWARE\\Microsoft\\Microsoft SDKs\\Windows\\v6.1a"

def V6_1_REG_KEY : String := "SOFTWARE\\Microsoft\\Microsoft SDKs\\Windows\\v6.1"

def V6_0A_REG_KEY : String := "SOFTWARE\\Microsoft\\Microsoft SDKs\\Windows\\v6.0a"

def V6_0_REG_KEY : String := "SOFTWARE\\Microsoft\\Microsoft SDKs\\Windows\\v6.0"

/-- The split pattern `r".0\"` of `query_env` (src/src/lib.rs line 145),
as a character list. -/
def sep0 : List Char := ['.', '0', '\\']

/-- `str::split` with the pattern `r".0\"`: the list of substrings between
non-overlapping occurrences of the pattern, scanned left to right. Faithful
to Rust's `Split` iterator for this (non-empty) pattern; `.next()` on it is
the head of this list. -/
def splitDotZeroSlash : List Char → List (List Char)
  | '.' :: '0' :: '\\' :: rest => [] :: splitDotZeroSlash rest
  | c :: rest =>
    match splitDotZeroSlash rest with
    | [] => [[c]]
    | h :: t => (c :: h) :: t
  | [] => [[]]

/-- `SdkInfo::query_env` (src/src/lib.rs lines 136–157), with its trace of
environment reads. `var_os("WindowsSdkDir")` is read first; the second
variable is read only when the first is present (`and_then`). Both `expect`
calls are modelled as `panicked`. -/
def query_env_t (env : Env) : List Event × PanicOr (Option SdkInfo) :=
  match env "WindowsSdkDir" with
  | none => ([.envRead "WindowsSdkDir"], .value none)
  | some install_dir =>
    match env "WindowsSdkVersion" with
    | none => ([.envRead "WindowsSdkDir", .envRead "WindowsSdkVersion"], .value none)
    | some version =>
      ([.envRead "WindowsSdkDir", .envRead "WindowsSdkVersion"],
        match version.into_string with
        | .error _ => .panicked "`WindowsSdkVersion` was not valid UTF-8"
        | .ok s =>
          match (splitDotZeroSlash s.toList).head? with
          | none => .panicked "`str::split` failed"
          | some ver =>
            .value (some
              { installation_folder := install_dir
                product_name := none
                product_version := String.mk ver }))

/-- `SdkInfo::query_env`'s returned value. -/
def query_env (env : Env) : PanicOr (Option SdkInfo) :=
  (query_env_t env).2

/-- `SdkInfo::query_reg` (src/src/lib.rs lines 159–177): open the subkey and
decode; a decode failure maps to `Ok(None)` (`.map` branch), an open failure
of kind `NotFound` maps to `Ok(None)`, any other open failure is returned as
`Err` (`.or_else` branch). -/
def query_reg (store : Store) (subkey : String) : Except IoError (Option SdkInfo) :=
  match store subkey with
  | .success decoded => .ok decoded
  | .failure e => if e.kind = .notFound then .ok none else .error e

/-- `SdkInfo::find_double_release` (src/src/lib.rs lines 127–133), with its
trace: probe the first key; exactly when that yields `Ok(None)`, probe the
second. -/
def find_double_release_t (store : Store) (keys : String × String) :
    List Event × Except IoError (Option SdkInfo) :=
  let res := query_reg store keys.1
  if res = .ok none then
    ([.regOpen keys.1, .regOpen keys.2], query_reg store keys.2)
  else
    ([.regOpen keys.1], res)

/-- `SdkInfo::find_double_release`'s returned value. -/
def find_double_release (store : Store) (keys : String × String) :
    Except IoError (Option SdkInfo) :=
  (find_double_release_t store keys).2

/-- Lifts `query_env`'s result into `find`'s result type:
`SdkVersion::Env => Ok(Self::query_env())`, a panic passing through. -/
def okOfEnv : PanicOr (Option SdkInfo) → PanicOr (Except IoError (Option SdkInfo))
  | .panicked m => .panicked m
  | .value o => .value (.ok o)

/-- The loop of `SdkVersion::Any` (src/src/lib.rs lines 107–114) over the
already-listed probe computations: skip every `Ok(None)`, return the first
other result; `Ok(None)` when the list is exhausted. Only the traces of the
probes actually reached are kept, matching the lazy `vers.iter().map(…)`. -/
def anyFold :
    List (List Event × PanicOr (Except IoError (Option SdkInfo))) →
      List Event × PanicOr (Except IoError (Option SdkInfo))
  | [] => ([], .value (.ok none))
  | p :: rest =>
    if p.2 = .value (.ok none) then
      ((p.1 ++ (anyFold rest).1), (anyFold rest).2)
    else
      p

/-- The `SdkVersion::Env` arm of `find`: `Ok(Self::query_env())`, a panic
passing through. -/
def probe_env_t (env : Env) : List Event × PanicOr (Except IoError (Option SdkInfo)) :=
  ((query_env_t env).1, okOfEnv (query_env_t env).2)

/-- The `SdkVersion::V10_0` arm of `find`: `Self::query_reg(V10_0_REG_KEY)`. -/
def probe_v10_t (store : Store) : List Event × PanicOr (Except IoError (Option SdkInfo)) :=
  ([.regOpen V10_0_REG_KEY], .value (query_reg store V10_0_REG_KEY))

/-- A `SdkVersion::V8_1 … V6_0` arm of `find`:
`Self::find_double_release((A_key, plain_key))`. -/
def probe_double_t (store : Store) (keys : String × String) :
    List Event × PanicOr (Except IoError (Option SdkInfo)) :=
  ((find_double_release_t store keys).1, .value (find_double_release_t store keys).2)

/-- `SdkInfo::find` (src/src/lib.rs lines 103–125), with its trace. The
`Any` arm runs the probes in the source's order
`vers = [Env, V10_0, V8_1, V8_0, V7_1, V7_0, V6_1, V6_0]`; each listed probe
computation is definitionally `find_t env store v` for the corresponding
version `v` (theorem `find_any_unfold`), matching the recursive
`Self::find(*v)` of the source. -/
def find_t (env : Env) (store : Store) : SdkVersion → List Event × PanicOr (Except IoError (Option SdkInfo))
  | .Any =>
    anyFold
      [probe_env_t env, probe_v10_t store,
        probe_double_t store (V8_1A_REG_KEY, V8_1_REG_KEY),
        probe_double_t store (V8_0A_REG_KEY, V8_0_REG_KEY),
        probe_double_t store (V7_1A_REG_KEY, V7_1_REG_KEY),
        probe_double_t store (V7_0A_REG_KEY, V7_0_REG_KEY),
        probe_double_t store (V6_1A_REG_KEY, V6_1_REG_KEY),
        probe_double_t store (V6_0A_REG_KEY, V6_0_REG_KEY)]
  | .Env => probe_env_t env
  | .V10_0 => probe_v10_t store
  | .V8_1 => probe_double_t store (V8_1A_REG_KEY, V8_1_REG_KEY)
  | .V8_0 => probe_double_t store (V8_0A_REG_KEY, V8_0_REG_KEY)
  | .V7_1 => probe_double_t store (V7_1A_REG_KEY, V7_1_REG_KEY)
  | .V7_0 => probe_double_t store (V7_0A_REG_KEY, V7_0_REG_KEY)
  | .V6_1 => probe_double_t store (V6_1A_REG_KEY, V6_1_REG_KEY)
  | .V6_0 => probe_double_t store (V6_0A_REG_KEY, V6_0_REG_KEY)

/-- `SdkInfo::find`'s returned value. -/
def find (env : Env) (store : Store) (version : SdkVersion) :
    PanicOr (Except IoError (Option SdkInfo)) :=
  (find_t env store version).2

/-- The order in which `SdkVersion::Any` probes the sources
(src/src/lib.rs line 107). -/
def anyProbeOrder : List SdkVersion :=
  [.Env, .V10_0, .V8_1, .V8_0, .V7_1, .V7_0, .V6_1, .V6_0]

/-- The traced results of the 8 probes of an `Any` search, in probe order. -/
def anyProbes (env : Env) (store : Store) :
    List (List Event × PanicOr (Except IoError (Option SdkInfo))) :=
  anyProbeOrder.map (find_t env store)

/- Concrete external states used by witnesses and counterexamples. -/

/-- An environment with no variables set. -/
def envEmpty : Env := fun _ => none

/-- A registry in which every subkey open fails with `NotFound`. -/
def storeEmpty : Store := fun _ => .failure ⟨.notFound⟩

/-- The spec's worked example: `WindowsSdkDir="C:\SDK\"`,
`WindowsSdkVersion="10.0.19041.0\"`. -/
def envEx : Env := fun n =>
  if n = "WindowsSdkDir" then some (.utf8 "C:\\SDK\\")
  else if n = "WindowsSdkVersion" then some (.utf8 "10.0.19041.0\\")
  else none

/-- An environment pointwise equal to `envEx` but written differently. -/
def envEx2 : Env := fun n =>
  if n = "SomeOtherVar" then none else envEx n

/-- The record `query_env` builds from `envEx`. -/
def infoEx : SdkInfo :=
  { installation_folder := .utf8 "C:\\SDK\\"
    product_name := none
    product_version := "10.0.19041" }

/-- Both variables set but `WindowsSdkVersion` is not valid UTF-8. -/
def envBad : Env := fun n =>
  if n = "WindowsSdkDir" then some (.utf8 "C:\\SDK\\")
  else if n = "WindowsSdkVersion" then some (.nonUtf8 [255])
  else none

/-- A decoded record registered under the plain (un-suffixed) v8.1 key. -/
def infoPlain81 : SdkInfo :=
  { installation_folder := .utf8 "C:\\Program Files\\Microsoft SDKs\\Windows\\v8.1"
    product_name := some "Windows SDK 8.1"
    product_version := "8.1" }

/-- A decoded record registered under the A-suffixed v8.1 key. -/
def infoA81 : SdkInfo :=
  { installation_folder := .utf8 "C:\\Program Files\\Microsoft SDKs\\Windows\\v8.1A"
    product_name := some "Windows SDK 8.1A"
    product_version := "8.1" }

/-- A registry where the v8.1A key exists but its record does not decode
(`success none`), while the plain v8.1 key exists and decodes. -/
def storeDecodeFail81 : Store := fun k =>
  if k = V8_1A_REG_KEY then .success none
  else if k = V8_1_REG_KEY then .success (some infoPlain81)
  else .failure ⟨.notFound⟩

/-- A registry where both v8.1 keys exist and decode. -/
def storeBoth81 : Store := fun k =>
  if k = V8_1A_REG_KEY then .success (some infoA81)
  else if k = V8_1_REG_KEY then .success (some infoPlain81)
  else .failure ⟨.notFound⟩

/-- A registry where opening the v10.0 key fails with a permission error and
everything else is absent. -/
def storeDenied : Store := fun k =>
  if k = V10_0_REG_KEY then .failure ⟨.permissionDenied⟩
  else .failure ⟨.notFound⟩

/-- A registry in which every key exists and decodes. -/
def storeFull : Store := fun _ => .success (some infoPlain81)

/-- The `Any` arm of `find` is the fold of the 8 probes `anyProbes`, i.e. of
`find_t` applied to each version of `anyProbeOrder` in order. -/
theorem find_any_unfold (env : Env) (store : Store) :
    find_t env store .Any = anyFold (anyProbes env store) :=
  rfl

/-- `str::split` never yields an empty iterator: the split list is never
`[]`. -/
theorem splitDotZeroSlash_ne_nil (s : List Char) : splitDotZeroSlash s ≠ [] := by
  induction s using splitDotZeroSlash.induct with
  | case1 rest ih => simp [splitDotZeroSlash]
  | case2 c rest hne hnil ih => simp [splitDotZeroSlash, hne, hnil]
  | case3 c rest hne h t hsplit ih => simp [splitDotZeroSlash, hne, hsplit]
  | case4 => simp [splitDotZeroSlash]

/-- The head of the split is exactly the prefix of `s` up to (and excluding)
the first occurrence of `sep0 = ".0\"`: it is a prefix of `s`, no occurrence
of `sep0` starts inside it, and it is followed immediately by an occurrence
of `sep0` unless it is all of `s`. -/
theorem splitHead_spec (s : List Char) :
    ∃ hd tl, splitDotZeroSlash s = hd :: tl ∧
      (∃ r, s = hd ++ r) ∧
      (∀ i, i < hd.length → ¬ ∃ r, s.drop i = sep0 ++ r) ∧
      ((∃ r, s.drop hd.length = sep0 ++ r) ∨ hd = s) := by
  induction s using splitDotZeroSlash.induct with
  | case1 rest ih =>
    refine ⟨[], splitDotZeroSlash rest, by simp [splitDotZeroSlash], ⟨_, rfl⟩, ?_, ?_⟩
    · intro i hi; simp at hi
    · exact Or.inl ⟨rest, by simp [sep0]⟩
  | case2 c rest hne hnil ih =>
    exact absurd hnil (splitDotZeroSlash_ne_nil rest)
  | case3 c rest hne hh tt hsplit ih =>
    obtain ⟨hd1, tl1, hsp, ⟨r, hr⟩, hnocc, hend⟩ := ih
    refine ⟨c :: hd1, tl1, ?_, ⟨r, by simp [hr]⟩, ?_, ?_⟩
    · simp [splitDotZeroSlash, hne, hsp]
    · intro i hi
      match i with
      | 0 =>
        rintro ⟨r', hr'⟩
        simp only [List.drop_zero, sep0, List.cons_append, List.nil_append,
          List.cons.injEq] at hr'
        exact hne r' hr'.1 hr'.2
      | j + 1 =>
        simp only [List.length_cons, Nat.add_lt_add_iff_right] at hi
        simpa using hnocc j hi
    · rcases hend with ⟨r', hr'⟩ | rfl
      · exact Or.inl ⟨r', by simpa using hr'⟩
      · exact Or.inr rfl
  | case4 =>
    exact ⟨[], [], by simp [splitDotZeroSlash], ⟨[], rfl⟩, by intro i hi; simp at hi,
      Or.inr rfl⟩

/-- If every listed probe yields `Ok(None)`, the `Any` loop reaches and keeps
all their traces and yields `Ok(None)`. -/
theorem anyFold_all_none (l : List (List Event × PanicOr (Except IoError (Option SdkInfo))))
    (h : ∀ p ∈ l, p.2 = .value (.ok none)) :
    anyFold l = ((l.map Prod.fst).flatten, .value (.ok none)) := by
  induction l with
  | nil => simp [anyFold]
  | cons p rest ih =>
    have hp := h p (List.mem_cons_self p rest)
    have hrest := fun q hq => h q (List.mem_cons_of_mem p hq)
    simp [anyFold, hp, ih hrest]

/-- If the probes before index `i` all yield `Ok(None)` and probe `i` does
not, the `Any` loop performs exactly probes `0 … i` and returns probe `i`'s
result. -/
theorem anyFold_first (l : List (List Event × PanicOr (Except IoError (Option SdkInfo))))
    (i : Nat) (hi : i < l.length)
    (hb : ∀ j (hj : j < l.length), j < i → (l[j]).2 = .value (.ok none))
    (hc : ¬ (l[i]).2 = .value (.ok none)) :
    anyFold l = (((l.take (i + 1)).map Prod.fst).flatten, (l[i]).2) := by
  induction l generalizing i with
  | nil => simp at hi
  | cons p rest ih =>
    match i with
    | 0 =>
      simp only [List.getElem_cons_zero] at hc
      simp [anyFold, hc]
    | j + 1 =>
      have hp : p.2 = .value (.ok none) := by
        simpa using hb 0 (by simp) (by omega)
      have hi' : j < rest.length := by simpa using hi
      have hb' : ∀ k (hk : k < rest.length), k < j → (rest[k]).2 = .value (.ok none) := by
        intro k hk hkj
        simpa using hb (k + 1) (by simpa using hk) (by omega)
      have hc' : ¬ (rest[j]).2 = .value (.ok none) := by simpa using hc
      simp [anyFold, hp, ih j hi' hb' hc']

/-- The `Any` loop yields `Ok(None)` exactly when every listed probe does. -/
theorem anyFold_none_iff (l : List (List Event × PanicOr (Except IoError (Option SdkInfo)))) :
    (anyFold l).2 = .value (.ok none) ↔ ∀ p ∈ l, p.2 = .value (.ok none) := by
  induction l with
  | nil => simp [anyFold]
  | cons p rest ih =>
    by_cases hp : p.2 = .value (.ok none)
    · simp [anyFold, hp, ih]
    · simp [anyFold, hp]

/-- C1: for the selector `Any`, `find` probes in the strict order
Env, 10.0, 8.1, 8.0, 7.1, 7.0, 6.1, 6.0 (first conjunct, the probe list);
if every probe yields `Ok(None)` the search returns `Ok(None)` (second
conjunct); and if the probes before index `i` all yield `Ok(None)` and
probe `i` does not, the search performs exactly the reads of probes
`0 … i` — no later probe — and returns probe `i`'s result (third
conjunct). An `Err` escaping `query_reg` is never of kind NotFound, which
`query_reg` folds to `Ok(None)`. -/
theorem find_any_probe_order (env : Env) (store : Store) :
    anyProbes env store =
      [find_t env store .Env, find_t env store .V10_0, find_t env store .V8_1,
        find_t env store .V8_0, find_t env store .V7_1, find_t env store .V7_0,
        find_t env store .V6_1, find_t env store .V6_0] ∧
    ((∀ p ∈ anyProbes env store, p.2 = .value (.ok none)) →
      find env store .Any = .value (.ok none)) ∧
    (∀ i (hi : i < (anyProbes env store).length),
      (∀ j (hj : j < (anyProbes env store).length), j < i →
        ((anyProbes env store)[j]).2 = .value (.ok none)) →
      ¬ ((anyProbes env store)[i]).2 = .value (.ok none) →
      find_t env store .Any =
        ((((anyProbes env store).take (i + 1)).map Prod.fst).flatten,
          ((anyProbes env store)[i]).2)) := by
  refine ⟨rfl, ?_, ?_⟩
  · intro h
    unfold find
    rw [find_any_unfold, anyFold_all_none _ h]
  · intro i hi hb hc
    rw [find_any_unfold, anyFold_first _ i hi hb hc]

/-- C1 witness: with both environment variables set and an empty registry,
the `Env` probe (index 0) decides the `Any` search; only the two
environment reads are performed. -/
theorem find_any_probe_order_witness :
    find_t envEx storeEmpty .Any
      = ([.envRead "WindowsSdkDir", .envRead "WindowsSdkVersion"],
          .value (.ok (some infoEx))) := by
  have h := (find_any_probe_order envEx storeEmpty).2.2 0 (by decide)
    (fun j hj hj0 => absurd hj0 (Nat.not_lt_zero j)) (by decide)
  exact h.trans (by decide)

/-- C2 counterexample: with the v8.1A key present but undecodable
(`success none`) and the plain v8.1 key present and decodable, the probe
also opens the plain key (second trace event) and returns the plain key's
record — so the un-suffixed location is checked, and its record returned,
although the A-suffixed location is not absent from the store. -/
theorem double_release_not_absent_cex :
    storeDecodeFail81 V8_1A_REG_KEY = .success none ∧
    find_t envEmpty storeDecodeFail81 .V8_1
      = ([.regOpen V8_1A_REG_KEY, .regOpen V8_1_REG_KEY],
          .value (.ok (some infoPlain81))) := by
  exact ⟨by decide, by decide⟩

/-- C2 (amended): the double-generation probe opens the A-suffixed key
first, and falls through to the un-suffixed key exactly when the A-probe
yields `Ok(None)` — that is, when the A-suffixed location is absent
(NotFound) or present but its record fails to decode; when the A-suffixed
record decodes successfully it is returned without opening the plain key.
The last conjunct fixes each double selector's key pair. -/
theorem find_double_release_spec (store : Store) (kA k : String) :
    (∀ a, store kA = .success (some a) →
      find_double_release_t store (kA, k) = ([.regOpen kA], .ok (some a))) ∧
    (query_reg store kA = .ok none →
      find_double_release_t store (kA, k)
        = ([.regOpen kA, .regOpen k], query_reg store k)) ∧
    (¬ query_reg store kA = .ok none →
      find_double_release_t store (kA, k) = ([.regOpen kA], query_reg store kA)) ∧
    (query_reg store kA = .ok none ↔
      store kA = .success none ∨ ∃ e, store kA = .failure e ∧ e.kind = .notFound) ∧
    (∀ env : Env,
      find_t env store .V8_1 = probe_double_t store (V8_1A_REG_KEY, V8_1_REG_KEY) ∧
      find_t env store .V8_0 = probe_double_t store (V8_0A_REG_KEY, V8_0_REG_KEY) ∧
      find_t env store .V7_1 = probe_double_t store (V7_1A_REG_KEY, V7_1_REG_KEY) ∧
      find_t env store .V7_0 = probe_double_t store (V7_0A_REG_KEY, V7_0_REG_KEY) ∧
      find_t env store .V6_1 = probe_double_t store (V6_1A_REG_KEY, V6_1_REG_KEY) ∧
      find_t env store .V6_0 = probe_double_t store (V6_0A_REG_KEY, V6_0_REG_KEY)) := by
  refine ⟨?_, ?_, ?_, ?_, fun env => ⟨rfl, rfl, rfl, rfl, rfl, rfl⟩⟩
  · intro a ha
    have hq : query_reg store kA = .ok (some a) := by simp [query_reg, ha]
    simp [find_double_release_t, hq]
  · intro h
    simp [find_double_release_t, h]
  · intro h
    simp [find_double_release_t, h]
  · cases hk : store kA with
    | success d => cases d <;> simp [query_reg, hk]
    | failure e => by_cases hkind : e.kind = .notFound <;> simp [query_reg, hk, hkind]

/-- C2 witness: when the A-suffixed record decodes, it is returned and the
plain key is never opened. -/
theorem find_double_release_spec_witness :
    find_double_release_t storeBoth81 (V8_1A_REG_KEY, V8_1_REG_KEY)
      = ([.regOpen V8_1A_REG_KEY], .ok (some infoA81)) :=
  (find_double_release_spec storeBoth81 V8_1A_REG_KEY V8_1_REG_KEY).1 infoA81 (by decide)

/-- C3: a single registry probe has exactly three non-error outcomes —
location absent (NotFound) gives `Ok(None)`, location present but
undecodable gives `Ok(None)`, location present and decodable gives
`Ok(Some info)` — any other access failure is returned as `Err`, and such
an `Err`, reached after only `Ok(None)` probes, aborts the `Any` search
with that error. -/
theorem query_reg_outcomes (store : Store) (key : String) :
    (∀ e, store key = .failure e → e.kind = .notFound → query_reg store key = .ok none) ∧
    (store key = .success none → query_reg store key = .ok none) ∧
    (∀ i, store key = .success (some i) → query_reg store key = .ok (some i)) ∧
    (∀ e, store key = .failure e → ¬ e.kind = .notFound → query_reg store key = .error e) ∧
    (∀ (env : Env) (i : Nat) (hi : i < (anyProbes env store).length) (e : IoError),
      (∀ j (hj : j < (anyProbes env store).length), j < i →
        ((anyProbes env store)[j]).2 = .value (.ok none)) →
      ((anyProbes env store)[i]).2 = .value (.error e) →
      find env store .Any = .value (.error e)) := by
  refine ⟨?_, ?_, ?_, ?_, ?_⟩
  · intro e he hk
    simp [query_reg, he, hk]
  · intro h
    simp [query_reg, h]
  · intro i h
    simp [query_reg, h]
  · intro e he hk
    simp [query_reg, he, hk]
  · intro env i hi e hb hcur
    have hc : ¬ ((anyProbes env store)[i]).2 = .value (.ok none) := by
      rw [hcur]; simp
    unfold find
    rw [find_any_unfold, anyFold_first _ i hi hb hc]
    simpa using hcur

/-- C3 witness: a permission-denied open is returned as `Err` and, appearing
as probe index 1 of an `Any` search whose probe 0 yields `Ok(None)`, aborts
the search with that error. -/
theorem query_reg_outcomes_witness :
    query_reg storeDenied V10_0_REG_KEY = .error ⟨.permissionDenied⟩ ∧
    find envEmpty storeDenied .Any = .value (.error ⟨.permissionDenied⟩) := by
  constructor
  · exact (query_reg_outcomes storeDenied V10_0_REG_KEY).2.2.2.1 ⟨.permissionDenied⟩
      (by decide) (by decide)
  · exact (query_reg_outcomes storeDenied V10_0_REG_KEY).2.2.2.2 envEmpty 1 (by decide)
      ⟨.permissionDenied⟩
      (fun j hj hj1 => by
        have hj0 : j = 0 := by omega
        subst hj0
        rfl)
      (by decide)

/-- C4: the Env probe yields `Some` only if both `WindowsSdkDir` and
`WindowsSdkVersion` are present; if either is absent it yields `None`; and
if both are present but the version is not valid UTF-8 text the call ends
in the propagated panic, never a silent fallback. -/
theorem query_env_spec (env : Env) :
    (env "WindowsSdkDir" = none → query_env env = .value none) ∧
    (env "WindowsSdkVersion" = none → query_env env = .value none) ∧
    (∀ d b, env "WindowsSdkDir" = some d → env "WindowsSdkVersion" = some (.nonUtf8 b) →
      query_env env = .panicked "`WindowsSdkVersion` was not valid UTF-8") ∧
    (∀ i, query_env env = .value (some i) →
      (∃ d, env "WindowsSdkDir" = some d) ∧ ∃ v, env "WindowsSdkVersion" = some v) := by
  refine ⟨?_, ?_, ?_, ?_⟩
  · intro h
    simp [query_env, query_env_t, h]
  · intro h
    cases hd : env "WindowsSdkDir" with
    | none => simp [query_env, query_env_t, hd]
    | some d => simp [query_env, query_env_t, hd, h]
  · intro d b hd hv
    simp [query_env, query_env_t, hd, hv, OsString.into_string]
  · intro i h
    cases hd : env "WindowsSdkDir" with
    | none => simp [query_env, query_env_t, hd] at h
    | some d =>
      cases hv : env "WindowsSdkVersion" with
      | none => simp [query_env, query_env_t, hd, hv] at h
      | some v => exact ⟨⟨d, rfl⟩, v, rfl⟩

/-- C4 witness: with both variables present but the version not valid
UTF-8, the probe panics. -/
theorem query_env_spec_witness :
    query_env envBad = .panicked "`WindowsSdkVersion` was not valid UTF-8" :=
  (query_env_spec envBad).2.2.1 (.utf8 "C:\\SDK\\") [255] (by decide) (by decide)

/-- C5: for every environment-sourced record, the stored `product_version`
is the prefix of the `WindowsSdkVersion` string up to (and excluding) the
first occurrence of the literal substring `".0\"` (it is a prefix of the
version string, no occurrence of `".0\"` starts inside it, and it is
followed immediately by such an occurrence unless none exists, in which
case it is the whole string); in particular the spec's worked example
`WindowsSdkDir="C:\SDK\"`, `WindowsSdkVersion="10.0.19041.0\"` resolves to
version `"10.0.19041"`. -/
theorem env_version_truncation (env : Env) (d : OsString) (s : String) :
    (env "WindowsSdkDir" = some d → env "WindowsSdkVersion" = some (.utf8 s) →
      ∃ ver : List Char,
        query_env env = .value (some
          { installation_folder := d
            product_name := none
            product_version := String.mk ver }) ∧
        (∃ r, s.toList = ver ++ r) ∧
        (∀ i, i < ver.length → ¬ ∃ r, s.toList.drop i = sep0 ++ r) ∧
        ((∃ r, s.toList.drop ver.length = sep0 ++ r) ∨ ver = s.toList)) ∧
    query_env envEx = .value (some infoEx) := by
  constructor
  · intro hd hv
    obtain ⟨hd1, tl1, hsp, hpre, hnocc, hend⟩ := splitHead_spec s.toList
    have hsp' : splitDotZeroSlash s.data = hd1 :: tl1 := hsp
    refine ⟨hd1, ?_, hpre, hnocc, hend⟩
    simp [query_env, query_env_t, hd, hv, OsString.into_string, hsp']
  · decide

/-- C5 witness: the truncation characterization instantiated at the spec's
worked example. -/
theorem env_version_truncation_witness :
    ∃ ver : List Char,
      query_env envEx = .value (some
        { installation_folder := .utf8 "C:\\SDK\\"
          product_name := none
          product_version := String.mk ver }) ∧
      (∃ r, "10.0.19041.0\\".toList = ver ++ r) ∧
      (∀ i, i < ver.length → ¬ ∃ r, "10.0.19041.0\\".toList.drop i = sep0 ++ r) ∧
      ((∃ r, "10.0.19041.0\\".toList.drop ver.length = sep0 ++ r) ∨
        ver = "10.0.19041.0\\".toList) :=
  (env_version_truncation envEx (.utf8 "C:\\SDK\\") "10.0.19041.0\\").1
    (by decide) (by decide)

/-- C6: whenever both environment variables are set, the version to valid
text, `find(Any)` returns the Env probe's result regardless of what the
registry holds, and the returned record's product name is absent. -/
theorem env_always_wins (env : Env) (store : Store) (d : OsString) (s : String) :
    env "WindowsSdkDir" = some d → env "WindowsSdkVersion" = some (.utf8 s) →
    find env store .Any = find env store .Env ∧
    ∃ i, find env store .Env = .value (.ok (some i)) ∧ i.product_name = none := by
  intro hd hv
  obtain ⟨hd1, tl1, hsp, _, _, _⟩ := splitHead_spec s.toList
  have hsp' : splitDotZeroSlash s.data = hd1 :: tl1 := hsp
  have henv : query_env env = .value (some
      { installation_folder := d
        product_name := none
        product_version := String.mk hd1 }) := by
    simp [query_env, query_env_t, hd, hv, OsString.into_string, hsp']
  have hfe : find env store .Env = .value (.ok (some
      { installation_folder := d
        product_name := none
        product_version := String.mk hd1 })) := by
    have h0 : find env store .Env = okOfEnv (query_env env) := rfl
    rw [h0, henv]
    rfl
  refine ⟨?_, _, hfe, rfl⟩
  have hne : ¬ (find_t env store .Env).2 = .value (.ok none) := by
    have h0 : (find_t env store .Env).2 = find env store .Env := rfl
    rw [h0, hfe]
    simp
  show (find_t env store .Any).2 = find env store .Env
  rw [find_any_unfold]
  simp only [anyProbes, anyProbeOrder, List.map]
  simp [anyFold, hne]
  rfl

/-- C6 witness: with the worked-example environment and a registry in which
every key exists and decodes, `Any` still returns the environment-sourced
record. -/
theorem env_always_wins_witness :
    find envEx storeFull .Any = .value (.ok (some infoEx)) := by
  have h := env_always_wins envEx storeFull (.utf8 "C:\\SDK\\") "10.0.19041.0\\"
    (by decide) (by decide)
  exact h.1.trans (by decide)

/-- C7: `find(Any)` returns `Ok(None)` if and only if every one of the 8
probes (`Env, V10_0, V8_1, V8_0, V7_1, V7_0, V6_1, V6_0`) returns
`Ok(None)`. -/
theorem find_any_none_iff (env : Env) (store : Store) :
    find env store .Any = .value (.ok none) ↔
      ∀ v ∈ anyProbeOrder, find env store v = .value (.ok none) := by
  unfold find
  rw [find_any_unfold, anyFold_none_iff]
  constructor
  · intro h v hv
    exact h (find_t env store v) (by simp [anyProbes]; exact ⟨v, hv, rfl⟩)
  · intro h p hp
    simp only [anyProbes, List.mem_map] at hp
    obtain ⟨v, hv, rfl⟩ := hp
    exact h v hv

/-- C7 witness: with nothing in the environment and every registry key
absent, all 8 probes yield `Ok(None)` and so does `Any`. -/
theorem find_any_none_iff_witness :
    find envEmpty storeEmpty .Any = .value (.ok none) :=
  (find_any_none_iff envEmpty storeEmpty).mpr (by decide)

/-- C8: `find` is deterministic and read-only: under pointwise-identical
external state (same environment contents, same registry contents), two
invocations return identical results, including identical traces of
external reads; the event type contains only read events and the state
functions are never modified (the embedding is a pure function of them). -/
theorem find_deterministic (v : SdkVersion) (env₁ env₂ : Env) (store₁ store₂ : Store) :
    (∀ n, env₁ n = env₂ n) → (∀ k, store₁ k = store₂ k) →
    find_t env₁ store₁ v = find_t env₂ store₂ v := by
  intro he hs
  have h1 : env₁ = env₂ := funext he
  have h2 : store₁ = store₂ := funext hs
  rw [h1, h2]

/-- C8 witness: two syntactically different but pointwise-equal
environments give identical `Any` results and traces. -/
theorem find_deterministic_witness :
    find_t envEx storeEmpty .Any = find_t envEx2 storeEmpty .Any := by
  have henv : ∀ n, envEx n = envEx2 n := by
    intro n
    by_cases h : n = "SomeOtherVar"
    · subst h; decide
    · simp [envEx2, h]
  exact find_deterministic .Any envEx envEx2 storeEmpty storeEmpty henv (fun _ => rfl)

/-- C9: `find(Env)` never returns `Err`: its outcome is `Ok(Some info)`,
`Ok(None)`, or the UTF-8 panic — the latter only when `WindowsSdkDir` is
present and `WindowsSdkVersion` is present but not valid UTF-8. -/
theorem find_env_no_error (env : Env) (store : Store) :
    (∃ i, find env store .Env = .value (.ok (some i))) ∨
    find env store .Env = .value (.ok none) ∨
    (find env store .Env = .panicked "`WindowsSdkVersion` was not valid UTF-8" ∧
      ∃ d b, env "WindowsSdkDir" = some d ∧ env "WindowsSdkVersion" = some (.nonUtf8 b)) := by
  have hfind : find env store .Env = okOfEnv (query_env env) := rfl
  cases hd : env "WindowsSdkDir" with
  | none =>
    refine Or.inr (Or.inl ?_)
    rw [hfind]
    simp [query_env, query_env_t, hd, okOfEnv]
  | some d =>
    cases hv : env "WindowsSdkVersion" with
    | none =>
      refine Or.inr (Or.inl ?_)
      rw [hfind]
      simp [query_env, query_env_t, hd, hv, okOfEnv]
    | some w =>
      cases w with
      | utf8 s =>
        obtain ⟨hd1, tl1, hsp, _, _, _⟩ := splitHead_spec s.toList
        have hsp' : splitDotZeroSlash s.data = hd1 :: tl1 := hsp
        refine Or.inl ⟨{ installation_folder := d
                         product_name := none
                         product_version := String.mk hd1 }, ?_⟩
        rw [hfind]
        simp [query_env, query_env_t, hd, hv, OsString.into_string, hsp', okOfEnv]
      | nonUtf8 b =>
        refine Or.inr (Or.inr ⟨?_, d, b, rfl, rfl⟩)
        rw [hfind]
        simp [query_env, query_env_t, hd, hv, OsString.into_string, okOfEnv]

/-- C10: splitting any string on the separator `".0\"` yields at least one
element, so the panic branch guarded by `expect("str::split failed")` is
unreachable: the only panic `query_env` can raise, over every environment,
is the UTF-8 one. -/
theorem split_never_fails (s : List Char) (env : Env) :
    (∃ hd tl, splitDotZeroSlash s = hd :: tl) ∧
    (query_env env = .panicked "`WindowsSdkVersion` was not valid UTF-8" ∨
      ∃ o, query_env env = .value o) := by
  constructor
  · obtain ⟨hd, tl, hsp, _, _, _⟩ := splitHead_spec s
    exact ⟨hd, tl, hsp⟩
  · cases hd : env "WindowsSdkDir" with
    | none => exact Or.inr ⟨none, by simp [query_env, query_env_t, hd]⟩
    | some d =>
      cases hv : env "WindowsSdkVersion" with
      | none => exact Or.inr ⟨none, by simp [query_env, query_env_t, hd, hv]⟩
      | some w =>
        cases w with
        | utf8 t =>
          obtain ⟨hd1, tl1, hsp, _, _, _⟩ := splitHead_spec t.toList
          have hsp' : splitDotZeroSlash t.data = hd1 :: tl1 := hsp
          exact Or.inr ⟨some { installation_folder := d
                               product_name := none
                               product_version := String.mk hd1 },
            by simp [query_env, query_env_t, hd, hv, OsString.into_string, hsp']⟩
        | nonUtf8 b =>
          exact Or.inl (by simp [query_env, query_env_t, hd, hv, OsString.into_string])
